import Mathlib

/-!
Shallow embedding of the CDB IPCA+ monthly-contribution simulator
(`src/streamlit_app.py`).

The engine is embedded over exact real arithmetic: the monthly rate `rm`
is derived from the annual rate by the 12th-root compounding formula, the
per-withdrawal-month accumulation is the literal fold the source performs,
and rounding to two decimal places happens only when a row is emitted,
modelled with the integer rounding function on 100·x.

Calendar dates follow the proleptic Gregorian calendar: the contribution
dates model `pd.date_range` with the month-start and month-end anchored
frequencies, and the withdrawal date models `pd.DateOffset(months=k)`,
which advances the month index and clamps the day to the target month.
-/

/-- Tax bracket resolver `aliquota_ir` (src lines 53-61): regressive
withholding-tax table keyed on the number of whole months invested.
Python ints are modelled as `ℤ`; the function is total. -/
def aliquota_ir (meses_investidos : ℤ) : ℚ :=
  if meses_investidos ≤ 6 then 0.225
  else if meses_investidos ≤ 12 then 0.20
  else if meses_investidos ≤ 24 then 0.175
  else 0.15

/-- Calendar date: year, month (1-12), day (1-31). -/
structure Date where
  year : ℤ
  month : ℕ
  day : ℕ
deriving DecidableEq

instance : Inhabited Date := ⟨⟨1970, 1, 1⟩⟩

/-- Gregorian leap-year rule, as used by pandas timestamps. -/
def isLeapYear (y : ℤ) : Bool :=
  (y % 4 == 0 && y % 100 != 0) || y % 400 == 0

/-- Number of days of a month in the Gregorian calendar. -/
def daysInMonth (y : ℤ) (m : ℕ) : ℕ :=
  if m = 2 then (if isLeapYear y then 29 else 28)
  else if m = 4 ∨ m = 6 ∨ m = 9 ∨ m = 11 then 30
  else 31

/-- Advance a date by `k` calendar months, clamping the day to the length
of the target month: the semantics of `d + pd.DateOffset(months=k)`. -/
def addMonths (d : Date) (k : ℤ) : Date :=
  let a : ℤ := 12 * d.year + ((d.month : ℤ) - 1) + k
  let y : ℤ := a / 12
  let m : ℕ := (a % 12).toNat + 1
  ⟨y, m, min d.day (daysInMonth y m)⟩

/-- First day of the month of a date. -/
def monthStart (d : Date) : Date := ⟨d.year, d.month, 1⟩

/-- Date of the i-th contribution (src lines 63-69). Models
`pd.date_range(start, periods, freq)`: with the month-start frequency the
range begins at the first month start on or after `inicio` (so it rolls
to the next month whenever `inicio` is not day 1); with the month-end
frequency it begins at the last day of the month of `inicio`. -/
def aporte_dates (inicio : Date) (aporte_inicio : Bool) (i : ℕ) : Date :=
  if aporte_inicio then
    addMonths (if inicio.day = 1 then inicio else addMonths (monthStart inicio) 1) i
  else
    let base := addMonths (monthStart inicio) i
    ⟨base.year, base.month, daysInMonth base.year base.month⟩

/-- Absolute month index of a date (12·year + month − 1), used to state
calendar-month arithmetic facts. -/
def monthIdx (d : Date) : ℤ := 12 * d.year + ((d.month : ℤ) - 1)

noncomputable section

/-- Rounding a real to 2 decimal places, the `round(x, 2)` applied at row
emission (src lines 98-102). -/
def round2 (x : ℝ) : ℝ := ((round (100 * x) : ℤ) : ℝ) / 100

/-- Monthly rate derived from the annual rate (src line 47):
`rm = (1 + taxa_anual) ** (1/12) - 1`. -/
def rm (taxa_anual : ℝ) : ℝ := (1 + taxa_anual) ^ ((1 : ℝ) / 12) - 1

/-- Running totals of the inner contribution loop (src lines 74-77). -/
structure Totals where
  total_investido : ℝ
  fv_total : ℝ
  lucro_total : ℝ
  ir_total : ℝ

/-- Body of the inner contribution loop (src lines 79-90) for withdrawal
month `t` and contribution index `m`. Since `m` ranges over
`List.range t`, the natural subtraction `t - m` agrees with the integer
difference computed by the source. -/
def contribStep (aporte_mensal rm_mensal : ℝ) (t : ℕ) (acc : Totals) (m : ℕ) : Totals :=
  let meses_investidos : ℕ := t - m
  let aport := aporte_mensal
  let fv := aport * (1 + rm_mensal) ^ meses_investidos
  let lucro := fv - aport
  let ir_rate : ℝ := ((aliquota_ir (meses_investidos : ℤ) : ℚ) : ℝ)
  let ir := lucro * ir_rate
  ⟨acc.total_investido + aport, acc.fv_total + fv, acc.lucro_total + lucro,
    acc.ir_total + ir⟩

/-- The whole inner loop for withdrawal month `t`: fold of `contribStep`
over `m = 0, …, t-1` starting from zero totals. -/
def contribLoop (aporte_mensal rm_mensal : ℝ) (t : ℕ) : Totals :=
  (List.range t).foldl (contribStep aporte_mensal rm_mensal t) ⟨0, 0, 0, 0⟩

/-- One emitted row of the month-by-month table (src lines 95-103). -/
structure Row where
  mes : ℕ
  data_saque : Date
  total_investido : ℝ
  saldo_bruto : ℝ
  rendimento_bruto : ℝ
  ir_saque : ℝ
  saldo_liquido : ℝ

instance : Inhabited Row := ⟨⟨0, default, 0, 0, 0, 0, 0⟩⟩

/-- The row emitted for withdrawal month `t` (src lines 92-103): monetary
fields are the 2-decimal roundings of the full-precision totals, and the
withdrawal date is the first contribution date advanced by `t - 1`
calendar months. -/
def snapshot (aporte_mensal rm_mensal : ℝ) (d0 : Date) (t : ℕ) : Row :=
  let tot := contribLoop aporte_mensal rm_mensal t
  let saldo_liquido := tot.fv_total - tot.ir_total
  { mes := t
    data_saque := addMonths d0 ((t : ℤ) - 1)
    total_investido := round2 tot.total_investido
    saldo_bruto := round2 tot.fv_total
    rendimento_bruto := round2 tot.lucro_total
    ir_saque := round2 tot.ir_total
    saldo_liquido := round2 saldo_liquido }

/-- The full simulation (src lines 72-103): one row per withdrawal month
`t = 1, …, meses`, in order. -/
def rows (aporte_mensal rm_mensal : ℝ) (meses : ℕ) (inicio : Date)
    (aporte_inicio : Bool) : List Row :=
  (List.range meses).map
    (fun i => snapshot aporte_mensal rm_mensal (aporte_dates inicio aporte_inicio 0) (i + 1))

end

/-! Helper lemmas about the embedding. -/

lemma sum_map_range (f : ℕ → ℝ) (n : ℕ) :
    ((List.range n).map f).sum = ∑ m ∈ Finset.range n, f m := by
  induction n with
  | zero => simp
  | succ k ih => rw [List.range_succ]; simp [ih, Finset.sum_range_succ]

lemma foldl_total_investido (a r : ℝ) (t : ℕ) (l : List ℕ) (s : Totals) :
    (l.foldl (contribStep a r t) s).total_investido = s.total_investido + a * l.length := by
  induction l generalizing s with
  | nil => simp
  | cons x xs ih => simp [ih, contribStep]; ring

lemma foldl_fv_total (a r : ℝ) (t : ℕ) (l : List ℕ) (s : Totals) :
    (l.foldl (contribStep a r t) s).fv_total =
      s.fv_total + (l.map (fun m => a * (1 + r) ^ (t - m))).sum := by
  induction l generalizing s with
  | nil => simp
  | cons x xs ih => simp [ih, contribStep]; ring

lemma foldl_lucro_total (a r : ℝ) (t : ℕ) (l : List ℕ) (s : Totals) :
    (l.foldl (contribStep a r t) s).lucro_total =
      s.lucro_total + (l.map (fun m => a * (1 + r) ^ (t - m) - a)).sum := by
  induction l generalizing s with
  | nil => simp
  | cons x xs ih => simp [ih, contribStep]; ring

lemma foldl_ir_total (a r : ℝ) (t : ℕ) (l : List ℕ) (s : Totals) :
    (l.foldl (contribStep a r t) s).ir_total =
      s.ir_total + (l.map (fun m =>
        (a * (1 + r) ^ (t - m) - a) * ((aliquota_ir ((t - m : ℕ) : ℤ) : ℚ) : ℝ))).sum := by
  induction l generalizing s with
  | nil => simp
  | cons x xs ih => simp [ih, contribStep]; ring

lemma contribLoop_total_investido (a r : ℝ) (t : ℕ) :
    (contribLoop a r t).total_investido = a * t := by
  simp [contribLoop, foldl_total_investido]

lemma contribLoop_fv_total (a r : ℝ) (t : ℕ) :
    (contribLoop a r t).fv_total = ∑ m ∈ Finset.range t, a * (1 + r) ^ (t - m) := by
  simp [contribLoop, foldl_fv_total, sum_map_range]

lemma contribLoop_lucro_total (a r : ℝ) (t : ℕ) :
    (contribLoop a r t).lucro_total =
      (∑ m ∈ Finset.range t, a * (1 + r) ^ (t - m)) - t * a := by
  simp only [contribLoop, foldl_lucro_total, sum_map_range]
  rw [Finset.sum_sub_distrib]
  simp [Finset.sum_const, Finset.card_range, nsmul_eq_mul]

lemma contribLoop_ir_total (a r : ℝ) (t : ℕ) :
    (contribLoop a r t).ir_total =
      ∑ m ∈ Finset.range t,
        (a * (1 + r) ^ (t - m) - a) * ((aliquota_ir ((t - m : ℕ) : ℤ) : ℚ) : ℝ) := by
  simp [contribLoop, foldl_ir_total, sum_map_range]

lemma rows_length_aux (a r : ℝ) (meses : ℕ) (inicio : Date) (pol : Bool) :
    (rows a r meses inicio pol).length = meses := by
  simp [rows]

lemma rows_getD (a r : ℝ) (meses : ℕ) (inicio : Date) (pol : Bool) (i : ℕ)
    (h : i < meses) :
    (rows a r meses inicio pol).getD i default =
      snapshot a r (aporte_dates inicio pol 0) (i + 1) := by
  rw [rows, List.getD_eq_getElem _ _ (by simpa using h)]
  simp [List.getElem_map, List.getElem_range]

lemma rm_zero : rm 0 = 0 := by
  have h : (1 : ℝ) + 0 = 1 := by norm_num
  simp [rm, h, Real.one_rpow]

lemma rm_nonneg (taxa : ℝ) (h : 0 ≤ taxa) : 0 ≤ rm taxa := by
  have h1 : (1 : ℝ) ≤ (1 + taxa) ^ ((1 : ℝ) / 12) :=
    Real.one_le_rpow (by linarith) (by norm_num)
  simp only [rm]
  linarith

lemma aliquota_ir_nonneg (m : ℤ) : 0 ≤ aliquota_ir m := by
  unfold aliquota_ir; split_ifs <;> norm_num

lemma aliquota_ir_le_one (m : ℤ) : aliquota_ir m ≤ 1 := by
  unfold aliquota_ir; split_ifs <;> norm_num

lemma one_le_daysInMonth (y : ℤ) (m : ℕ) : 1 ≤ daysInMonth y m := by
  unfold daysInMonth; split_ifs <;> norm_num

lemma addMonths_monthIdx (d : Date) (k : ℤ) :
    monthIdx (addMonths d k) = monthIdx d + k := by
  simp only [addMonths, monthIdx]
  push_cast
  omega

lemma addMonths_day (d : Date) (k : ℤ) :
    (addMonths d k).day =
      min d.day (daysInMonth (addMonths d k).year (addMonths d k).month) := rfl

lemma addMonths_day_one (d : Date) (k : ℤ) (hd : d.day = 1) :
    (addMonths d k).day = 1 := by
  rw [addMonths_day, hd]
  exact Nat.min_eq_left (one_le_daysInMonth _ _)

/-! Claim theorems. -/

/-- C2: for every positive integer number of months invested, `aliquota_ir`
returns exactly 0.225 up to 6 months, 0.20 for 7 to 12, 0.175 for 13 to 24,
and 0.15 beyond 24 months; in particular the boundary inputs 6, 7, 12, 13,
24, 25 map to 0.225, 0.20, 0.20, 0.175, 0.175, 0.15 respectively. -/
theorem aliquota_brackets (m : ℤ) (hm : 1 ≤ m) :
    (m ≤ 6 → aliquota_ir m = 0.225) ∧
    (7 ≤ m → m ≤ 12 → aliquota_ir m = 0.20) ∧
    (13 ≤ m → m ≤ 24 → aliquota_ir m = 0.175) ∧
    (24 < m → aliquota_ir m = 0.15) ∧
    aliquota_ir 6 = 0.225 ∧ aliquota_ir 7 = 0.20 ∧ aliquota_ir 12 = 0.20 ∧
    aliquota_ir 13 = 0.175 ∧ aliquota_ir 24 = 0.175 ∧ aliquota_ir 25 = 0.15 := by
  refine ⟨?_, ?_, ?_, ?_, ?_, ?_, ?_, ?_, ?_, ?_⟩
  · intro h; simp [aliquota_ir, h]
  · intro h1 h2
    unfold aliquota_ir
    rw [if_neg (by omega), if_pos h2]
  · intro h1 h2
    unfold aliquota_ir
    rw [if_neg (by omega), if_neg (by omega), if_pos h2]
  · intro h
    unfold aliquota_ir
    rw [if_neg (by omega), if_neg (by omega), if_neg (by omega)]
  all_goals norm_num [aliquota_ir]

/-- C2 witness at the concrete input 7. -/
theorem aliquota_brackets_witness :
    1 ≤ (7:ℤ) ∧
    (((7:ℤ) ≤ 6 → aliquota_ir 7 = 0.225) ∧
     (7 ≤ (7:ℤ) → (7:ℤ) ≤ 12 → aliquota_ir 7 = 0.20) ∧
     (13 ≤ (7:ℤ) → (7:ℤ) ≤ 24 → aliquota_ir 7 = 0.175) ∧
     (24 < (7:ℤ) → aliquota_ir 7 = 0.15) ∧
     aliquota_ir 6 = 0.225 ∧ aliquota_ir 7 = 0.20 ∧ aliquota_ir 12 = 0.20 ∧
     aliquota_ir 13 = 0.175 ∧ aliquota_ir 24 = 0.175 ∧ aliquota_ir 25 = 0.15) :=
  ⟨by norm_num, aliquota_brackets 7 (by norm_num)⟩

/-- C5: for months held at least 1, `aliquota_ir` is monotonically
non-increasing, and its value is always one of 0.225, 0.20, 0.175, 0.15. -/
theorem aliquota_antitone (m1 m2 : ℤ) (h1 : 1 ≤ m1) (h12 : m1 ≤ m2) :
    aliquota_ir m2 ≤ aliquota_ir m1 ∧
    (aliquota_ir m1 = 0.225 ∨ aliquota_ir m1 = 0.20 ∨
      aliquota_ir m1 = 0.175 ∨ aliquota_ir m1 = 0.15) := by
  unfold aliquota_ir
  split_ifs <;> first | (exfalso; omega) | norm_num

/-- C5 witness at the concrete inputs 6 and 13. -/
theorem aliquota_antitone_witness :
    1 ≤ (6:ℤ) ∧ (6:ℤ) ≤ 13 ∧
    (aliquota_ir 13 ≤ aliquota_ir 6 ∧
     (aliquota_ir 6 = 0.225 ∨ aliquota_ir 6 = 0.20 ∨
       aliquota_ir 6 = 0.175 ∨ aliquota_ir 6 = 0.15)) :=
  ⟨by norm_num, by norm_num, aliquota_antitone 6 13 (by norm_num) (by norm_num)⟩

/-- C10: `aliquota_ir` is total over all integers; every input at most 6,
including 0 and negative values, returns 0.225 rather than failing. -/
theorem aliquota_total_low (m : ℤ) (hm : m ≤ 6) : aliquota_ir m = 0.225 := by
  simp [aliquota_ir, hm]

/-- C10 witness at the concrete input -3. -/
theorem aliquota_total_low_witness : (-3:ℤ) ≤ 6 ∧ aliquota_ir (-3) = 0.225 :=
  ⟨by norm_num, aliquota_total_low (-3) (by norm_num)⟩

/-- C3: for valid parameters the simulation emits exactly `meses` rows and
the month-index field of the i-th row (0-based) is i+1, so the month
indices are 1, 2, …, meses in order. -/
theorem rows_length_mes (a taxa : ℝ) (meses : ℕ) (inicio : Date) (pol : Bool) (i : ℕ)
    (ha : 0 < a) (hr : 0 ≤ taxa) (hm : 1 ≤ meses) (hi : i < meses) :
    (rows a (rm taxa) meses inicio pol).length = meses ∧
    ((rows a (rm taxa) meses inicio pol).getD i default).mes = i + 1 := by
  refine ⟨rows_length_aux a (rm taxa) meses inicio pol, ?_⟩
  rw [rows_getD a (rm taxa) meses inicio pol i hi]
  rfl

/-- C3 witness at amount 100, rate 0, 2 months, row index 1. -/
theorem rows_length_mes_witness :
    0 < (100:ℝ) ∧ 0 ≤ (0:ℝ) ∧ 1 ≤ 2 ∧ 1 < 2 ∧
    ((rows 100 (rm 0) 2 ⟨2024, 1, 1⟩ true).length = 2 ∧
     ((rows 100 (rm 0) 2 ⟨2024, 1, 1⟩ true).getD 1 default).mes = 1 + 1) :=
  ⟨by norm_num, le_rfl, by norm_num, by norm_num,
    rows_length_mes 100 0 2 ⟨2024, 1, 1⟩ true 1 (by norm_num) le_rfl (by norm_num) (by norm_num)⟩

/-- C4: with zero annual rate the derived monthly rate is zero, and in
every row the gross balance field equals the invested field (both are the
rounding of t times the amount), the gross-profit field is zero, and the
tax field is zero. -/
theorem zero_rate_rows (a : ℝ) (meses t : ℕ) (inicio : Date) (pol : Bool)
    (ha : 0 < a) (ht1 : 1 ≤ t) (ht2 : t ≤ meses) :
    rm 0 = 0 ∧
    ((rows a (rm 0) meses inicio pol).getD (t - 1) default).saldo_bruto =
      ((rows a (rm 0) meses inicio pol).getD (t - 1) default).total_investido ∧
    ((rows a (rm 0) meses inicio pol).getD (t - 1) default).saldo_bruto =
      round2 ((t : ℝ) * a) ∧
    ((rows a (rm 0) meses inicio pol).getD (t - 1) default).rendimento_bruto = 0 ∧
    ((rows a (rm 0) meses inicio pol).getD (t - 1) default).ir_saque = 0 := by
  have hi : t - 1 < meses := by omega
  rw [rows_getD a (rm 0) meses inicio pol (t - 1) hi, (by omega : t - 1 + 1 = t)]
  have hfv : (contribLoop a (rm 0) t).fv_total = (t : ℝ) * a := by
    rw [rm_zero, contribLoop_fv_total]
    simp [Finset.sum_const, Finset.card_range, nsmul_eq_mul]
  have hti : (contribLoop a (rm 0) t).total_investido = a * t :=
    contribLoop_total_investido a (rm 0) t
  have hlu : (contribLoop a (rm 0) t).lucro_total = 0 := by
    rw [rm_zero, contribLoop_lucro_total]
    simp [Finset.sum_const, Finset.card_range, nsmul_eq_mul]
  have hir : (contribLoop a (rm 0) t).ir_total = 0 := by
    rw [rm_zero, contribLoop_ir_total]
    simp
  refine ⟨rm_zero, ?_, ?_, ?_, ?_⟩
  · simp only [snapshot, hfv, hti]
    rw [mul_comm]
  · simp only [snapshot, hfv]
  · simp only [snapshot, hlu]
    simp [round2]
  · simp only [snapshot, hir]
    simp [round2]

/-- C4 witness at amount 100, 3 months, withdrawal month 2. -/
theorem zero_rate_rows_witness :
    0 < (100:ℝ) ∧ 1 ≤ 2 ∧ 2 ≤ 3 ∧
    (rm 0 = 0 ∧
     ((rows 100 (rm 0) 3 ⟨2024, 1, 1⟩ true).getD (2 - 1) default).saldo_bruto =
       ((rows 100 (rm 0) 3 ⟨2024, 1, 1⟩ true).getD (2 - 1) default).total_investido ∧
     ((rows 100 (rm 0) 3 ⟨2024, 1, 1⟩ true).getD (2 - 1) default).saldo_bruto =
       round2 (((2:ℕ) : ℝ) * 100) ∧
     ((rows 100 (rm 0) 3 ⟨2024, 1, 1⟩ true).getD (2 - 1) default).rendimento_bruto = 0 ∧
     ((rows 100 (rm 0) 3 ⟨2024, 1, 1⟩ true).getD (2 - 1) default).ir_saque = 0) :=
  ⟨by norm_num, by norm_num, by norm_num,
    zero_rate_rows 100 3 2 ⟨2024, 1, 1⟩ true (by norm_num) (by norm_num) (by norm_num)⟩

/-- C9: with a nonnegative annual rate, for every withdrawal month the
accumulated tax never exceeds the accumulated gross profit, and therefore
the pre-rounding net balance is at least the total invested. -/
theorem tax_le_profit (aporte taxa : ℝ) (t : ℕ) (ha : 0 < aporte) (hr : 0 ≤ taxa) :
    (contribLoop aporte (rm taxa) t).ir_total ≤ (contribLoop aporte (rm taxa) t).lucro_total ∧
    (t : ℝ) * aporte ≤
      (contribLoop aporte (rm taxa) t).fv_total - (contribLoop aporte (rm taxa) t).ir_total := by
  have hrm := rm_nonneg taxa hr
  have hsum : (∑ m ∈ Finset.range t, aporte * (1 + rm taxa) ^ (t - m)) - (t : ℝ) * aporte
      = ∑ m ∈ Finset.range t, (aporte * (1 + rm taxa) ^ (t - m) - aporte) := by
    rw [Finset.sum_sub_distrib]
    simp [Finset.sum_const, Finset.card_range, nsmul_eq_mul]
  have key : (contribLoop aporte (rm taxa) t).ir_total ≤
      (contribLoop aporte (rm taxa) t).lucro_total := by
    rw [contribLoop_ir_total, contribLoop_lucro_total, hsum]
    apply Finset.sum_le_sum
    intro i _
    have hpow : (1 : ℝ) ≤ (1 + rm taxa) ^ (t - i) := by
      have h1 : ((1 : ℝ)) ^ (t - i) ≤ (1 + rm taxa) ^ (t - i) :=
        pow_le_pow_left₀ (by norm_num) (by linarith) (t - i)
      simpa using h1
    have hlucro : 0 ≤ aporte * (1 + rm taxa) ^ (t - i) - aporte := by nlinarith
    have hrate1 : ((aliquota_ir ((t - i : ℕ) : ℤ) : ℚ) : ℝ) ≤ 1 := by
      exact_mod_cast aliquota_ir_le_one ((t - i : ℕ) : ℤ)
    exact mul_le_of_le_one_right hlucro hrate1
  refine ⟨key, ?_⟩
  have hl : (contribLoop aporte (rm taxa) t).lucro_total
      = (contribLoop aporte (rm taxa) t).fv_total - (t : ℝ) * aporte := by
    rw [contribLoop_lucro_total, contribLoop_fv_total]
  rw [hl] at key
  linarith

/-- C9 witness at amount 100, rate 0, withdrawal month 3. -/
theorem tax_le_profit_witness :
    0 < (100:ℝ) ∧ 0 ≤ (0:ℝ) ∧
    ((contribLoop 100 (rm 0) 3).ir_total ≤ (contribLoop 100 (rm 0) 3).lucro_total ∧
     ((3:ℕ) : ℝ) * 100 ≤
       (contribLoop 100 (rm 0) 3).fv_total - (contribLoop 100 (rm 0) 3).ir_total) :=
  ⟨by norm_num, le_rfl, tax_le_profit 100 0 3 (by norm_num) le_rfl⟩

/-- C1: for valid parameters and any withdrawal month t between 1 and
`meses`, the t-th emitted row, computed with the monthly rate
rm = (1 + annual rate)^(1/12) − 1, carries: invested = t·amount;
gross = Σ over m < t of amount·(1+rm)^(t−m); profit = gross − invested;
tax = Σ over m < t of (amount·(1+rm)^(t−m) − amount)·aliquota_ir(t−m);
net = gross − tax; each field rounded to 2 decimals only at emission,
after full-precision accumulation. -/
theorem snapshot_formula (aporte taxa : ℝ) (meses t : ℕ) (inicio : Date) (pol : Bool)
    (ha : 0 < aporte) (hr : 0 ≤ taxa) (ht1 : 1 ≤ t) (ht2 : t ≤ meses) :
    ((rows aporte (rm taxa) meses inicio pol).getD (t - 1) default).total_investido
        = round2 ((t : ℝ) * aporte) ∧
    ((rows aporte (rm taxa) meses inicio pol).getD (t - 1) default).saldo_bruto
        = round2 (∑ m ∈ Finset.range t, aporte * (1 + rm taxa) ^ (t - m)) ∧
    ((rows aporte (rm taxa) meses inicio pol).getD (t - 1) default).rendimento_bruto
        = round2 ((∑ m ∈ Finset.range t, aporte * (1 + rm taxa) ^ (t - m)) - (t : ℝ) * aporte) ∧
    ((rows aporte (rm taxa) meses inicio pol).getD (t - 1) default).ir_saque
        = round2 (∑ m ∈ Finset.range t,
            (aporte * (1 + rm taxa) ^ (t - m) - aporte) * ((aliquota_ir ((t - m : ℕ) : ℤ) : ℚ) : ℝ)) ∧
    ((rows aporte (rm taxa) meses inicio pol).getD (t - 1) default).saldo_liquido
        = round2 ((∑ m ∈ Finset.range t, aporte * (1 + rm taxa) ^ (t - m)) -
            ∑ m ∈ Finset.range t,
              (aporte * (1 + rm taxa) ^ (t - m) - aporte) * ((aliquota_ir ((t - m : ℕ) : ℤ) : ℚ) : ℝ)) := by
  have hi : t - 1 < meses := by omega
  rw [rows_getD aporte (rm taxa) meses inicio pol (t - 1) hi, (by omega : t - 1 + 1 = t)]
  refine ⟨?_, ?_, ?_, ?_, ?_⟩
  · simp only [snapshot, contribLoop_total_investido]
    rw [mul_comm]
  · simp only [snapshot, contribLoop_fv_total]
  · simp only [snapshot, contribLoop_lucro_total]
  · simp only [snapshot, contribLoop_ir_total]
  · simp only [snapshot, contribLoop_fv_total, contribLoop_ir_total]

/-- C1 witness at amount 100, rate 0, one month. -/
theorem snapshot_formula_witness :
    0 < (100:ℝ) ∧ 0 ≤ (0:ℝ) ∧ 1 ≤ 1 ∧ 1 ≤ 1 ∧
    (((rows 100 (rm 0) 1 ⟨2024, 1, 1⟩ true).getD (1 - 1) default).total_investido
        = round2 (((1:ℕ) : ℝ) * 100) ∧
     ((rows 100 (rm 0) 1 ⟨2024, 1, 1⟩ true).getD (1 - 1) default).saldo_bruto
        = round2 (∑ m ∈ Finset.range 1, 100 * (1 + rm 0) ^ (1 - m)) ∧
     ((rows 100 (rm 0) 1 ⟨2024, 1, 1⟩ true).getD (1 - 1) default).rendimento_bruto
        = round2 ((∑ m ∈ Finset.range 1, 100 * (1 + rm 0) ^ (1 - m)) - ((1:ℕ) : ℝ) * 100) ∧
     ((rows 100 (rm 0) 1 ⟨2024, 1, 1⟩ true).getD (1 - 1) default).ir_saque
        = round2 (∑ m ∈ Finset.range 1,
            (100 * (1 + rm 0) ^ (1 - m) - 100) * ((aliquota_ir ((1 - m : ℕ) : ℤ) : ℚ) : ℝ)) ∧
     ((rows 100 (rm 0) 1 ⟨2024, 1, 1⟩ true).getD (1 - 1) default).saldo_liquido
        = round2 ((∑ m ∈ Finset.range 1, 100 * (1 + rm 0) ^ (1 - m)) -
            ∑ m ∈ Finset.range 1,
              (100 * (1 + rm 0) ^ (1 - m) - 100) * ((aliquota_ir ((1 - m : ℕ) : ℤ) : ℚ) : ℝ))) :=
  ⟨by norm_num, le_rfl, le_rfl, le_rfl,
    snapshot_formula 100 0 1 1 ⟨2024, 1, 1⟩ true (by norm_num) le_rfl le_rfl le_rfl⟩

/-- C7: the withdrawal date of row t is the contribution date of index 0
advanced by t−1 calendar months, where advancing preserves the day of the
month up to clamping at the target month length. -/
theorem data_saque_spec (aporte taxa : ℝ) (meses t : ℕ) (inicio : Date) (pol : Bool)
    (ha : 0 < aporte) (hr : 0 ≤ taxa) (ht1 : 1 ≤ t) (ht2 : t ≤ meses) :
    ((rows aporte (rm taxa) meses inicio pol).getD (t - 1) default).data_saque
        = addMonths (aporte_dates inicio pol 0) ((t : ℤ) - 1) ∧
    monthIdx (((rows aporte (rm taxa) meses inicio pol).getD (t - 1) default).data_saque)
        = monthIdx (aporte_dates inicio pol 0) + ((t : ℤ) - 1) ∧
    (((rows aporte (rm taxa) meses inicio pol).getD (t - 1) default).data_saque).day
        = min (aporte_dates inicio pol 0).day
            (daysInMonth
              ((((rows aporte (rm taxa) meses inicio pol).getD (t - 1) default).data_saque).year)
              ((((rows aporte (rm taxa) meses inicio pol).getD (t - 1) default).data_saque).month)) := by
  have hi : t - 1 < meses := by omega
  rw [rows_getD aporte (rm taxa) meses inicio pol (t - 1) hi, (by omega : t - 1 + 1 = t)]
  have hd : (snapshot aporte (rm taxa) (aporte_dates inicio pol 0) t).data_saque
      = addMonths (aporte_dates inicio pol 0) ((t : ℤ) - 1) := rfl
  rw [hd]
  exact ⟨rfl, addMonths_monthIdx (aporte_dates inicio pol 0) ((t : ℤ) - 1),
    addMonths_day (aporte_dates inicio pol 0) ((t : ℤ) - 1)⟩

/-- C7 witness at amount 100, rate 0, 2 months, withdrawal month 2,
start 2024-01-31, end-of-month policy. -/
theorem data_saque_spec_witness :
    0 < (100:ℝ) ∧ 0 ≤ (0:ℝ) ∧ 1 ≤ 2 ∧ 2 ≤ 2 ∧
    (((rows 100 (rm 0) 2 ⟨2024, 1, 31⟩ false).getD (2 - 1) default).data_saque
        = addMonths (aporte_dates ⟨2024, 1, 31⟩ false 0) (((2:ℕ) : ℤ) - 1) ∧
     monthIdx (((rows 100 (rm 0) 2 ⟨2024, 1, 31⟩ false).getD (2 - 1) default).data_saque)
        = monthIdx (aporte_dates ⟨2024, 1, 31⟩ false 0) + (((2:ℕ) : ℤ) - 1) ∧
     (((rows 100 (rm 0) 2 ⟨2024, 1, 31⟩ false).getD (2 - 1) default).data_saque).day
        = min (aporte_dates ⟨2024, 1, 31⟩ false 0).day
            (daysInMonth
              ((((rows 100 (rm 0) 2 ⟨2024, 1, 31⟩ false).getD (2 - 1) default).data_saque).year)
              ((((rows 100 (rm 0) 2 ⟨2024, 1, 31⟩ false).getD (2 - 1) default).data_saque).month))) :=
  ⟨by norm_num, le_rfl, by norm_num, le_rfl,
    data_saque_spec 100 0 2 2 ⟨2024, 1, 31⟩ false (by norm_num) le_rfl (by norm_num) le_rfl⟩

/-- C6 as stated is false: with start date 2024-01-15 and the
beginning-of-month policy, the 0th contribution date is 2024-02-01, the
first day of the NEXT month, not a first day of the month of the start
date. -/
theorem aporte_dates_counterexample :
    aporte_dates ⟨2024, 1, 15⟩ true 0 = ⟨2024, 2, 1⟩ ∧
    aporte_dates ⟨2024, 1, 15⟩ true 0 ≠ ⟨2024, 1, 1⟩ := by
  constructor <;> decide

/-- C6 amended: under the beginning-of-month policy the i-th contribution
date is the first day of successive months starting at the month of the
start date when the start date is day 1, and otherwise starting at the
following month; under the end-of-month policy it is the last day of
successive months starting at the month of the start date. -/
theorem aporte_dates_amended (inicio : Date) (i : ℕ)
    (hm1 : 1 ≤ inicio.month) (hm2 : inicio.month ≤ 12)
    (hd1 : 1 ≤ inicio.day) (hd2 : inicio.day ≤ daysInMonth inicio.year inicio.month) :
    ((aporte_dates inicio true i).day = 1 ∧
      monthIdx (aporte_dates inicio true i) =
        monthIdx inicio + (if inicio.day = 1 then 0 else 1) + i) ∧
    ((aporte_dates inicio false i).day =
        daysInMonth (aporte_dates inicio false i).year (aporte_dates inicio false i).month ∧
      monthIdx (aporte_dates inicio false i) = monthIdx inicio + i) := by
  have hms : monthIdx (monthStart inicio) = monthIdx inicio := rfl
  have htrue : ∀ j : ℕ, aporte_dates inicio true j =
      addMonths (if inicio.day = 1 then inicio else addMonths (monthStart inicio) 1) j :=
    fun j => rfl
  have hfalse : ∀ j : ℕ, aporte_dates inicio false j =
      ⟨(addMonths (monthStart inicio) j).year, (addMonths (monthStart inicio) j).month,
        daysInMonth (addMonths (monthStart inicio) j).year
          (addMonths (monthStart inicio) j).month⟩ :=
    fun j => rfl
  refine ⟨⟨?_, ?_⟩, ?_, ?_⟩
  · rw [htrue]
    by_cases h : inicio.day = 1
    · rw [if_pos h]
      exact addMonths_day_one inicio i h
    · rw [if_neg h]
      exact addMonths_day_one _ i (addMonths_day_one (monthStart inicio) 1 rfl)
  · rw [htrue]
    by_cases h : inicio.day = 1
    · rw [if_pos h, addMonths_monthIdx, if_pos h]
      ring
    · rw [if_neg h, addMonths_monthIdx, addMonths_monthIdx, hms, if_neg h]
  · rw [hfalse]
  · rw [hfalse]
    have hbase : monthIdx
        ⟨(addMonths (monthStart inicio) i).year, (addMonths (monthStart inicio) i).month,
          daysInMonth (addMonths (monthStart inicio) i).year
            (addMonths (monthStart inicio) i).month⟩
        = monthIdx (addMonths (monthStart inicio) i) := rfl
    rw [hbase, addMonths_monthIdx, hms]

/-- C6 amended witness at start date 2024-01-15, index 2. -/
theorem aporte_dates_amended_witness :
    1 ≤ (⟨2024, 1, 15⟩ : Date).month ∧ (⟨2024, 1, 15⟩ : Date).month ≤ 12 ∧
    1 ≤ (⟨2024, 1, 15⟩ : Date).day ∧
    (⟨2024, 1, 15⟩ : Date).day ≤
      daysInMonth (⟨2024, 1, 15⟩ : Date).year (⟨2024, 1, 15⟩ : Date).month ∧
    (((aporte_dates ⟨2024, 1, 15⟩ true 2).day = 1 ∧
       monthIdx (aporte_dates ⟨2024, 1, 15⟩ true 2) =
         monthIdx ⟨2024, 1, 15⟩ + (if (⟨2024, 1, 15⟩ : Date).day = 1 then 0 else 1) + 2) ∧
     ((aporte_dates ⟨2024, 1, 15⟩ false 2).day =
         daysInMonth (aporte_dates ⟨2024, 1, 15⟩ false 2).year
           (aporte_dates ⟨2024, 1, 15⟩ false 2).month ∧
       monthIdx (aporte_dates ⟨2024, 1, 15⟩ false 2) = monthIdx ⟨2024, 1, 15⟩ + 2)) :=
  ⟨by norm_num, by norm_num, by norm_num, by decide,
    aporte_dates_amended ⟨2024, 1, 15⟩ 2 (by norm_num) (by norm_num) (by norm_num) (by decide)⟩

/-- C8 as stated is false: the engine performs no parameter validation.
Given the invalid amount -5 (amount must be positive) it does not reject
before computation and surfaces no validation error; it emits a garbage
row whose invested total is the negative amount. -/
theorem no_rejection_counterexample :
    (rows (-5) 0 1 ⟨2024, 1, 1⟩ true).length = 1 ∧
    ((rows (-5) 0 1 ⟨2024, 1, 1⟩ true).getD 0 default).total_investido = -5 := by
  refine ⟨rows_length_aux (-5) 0 1 ⟨2024, 1, 1⟩ true, ?_⟩
  have h0 : (0 : ℕ) < 1 := by norm_num
  have := rows_getD (-5) 0 1 ⟨2024, 1, 1⟩ true 0 h0
  rw [this]
  have hproj : (snapshot (-5) 0 (aporte_dates ⟨2024, 1, 1⟩ true 0) (0 + 1)).total_investido
      = round2 ((contribLoop (-5) 0 (0 + 1)).total_investido) := rfl
  rw [hproj, contribLoop_total_investido]
  have hcast : (100 : ℝ) * (-5 * ((0 + 1 : ℕ) : ℝ)) = ((-500 : ℤ) : ℝ) := by
    push_cast
    ring
  rw [round2, hcast, round_intCast]
  norm_num

/-- C8 amended: the engine itself is total and performs no validation: it
emits one row per month for whatever parameters it receives. Invalid
parameters are instead prevented upstream by the input-widget constraints
(amount at least 1, rate at least 0, years at least 1, months = 12·years),
which guarantee the engine only receives valid parameters. -/
theorem widget_validation_amended (aporte taxa : ℝ) (prazo_anos meses : ℕ)
    (inicio : Date) (pol : Bool)
    (hw1 : 1 ≤ aporte) (hw2 : 0 ≤ taxa) (hw3 : 1 ≤ prazo_anos)
    (hm : meses = prazo_anos * 12) :
    (0 < aporte ∧ 0 ≤ taxa ∧ 1 ≤ meses) ∧
    (rows aporte (rm taxa) meses inicio pol).length = meses :=
  ⟨⟨by linarith, hw2, by omega⟩, rows_length_aux aporte (rm taxa) meses inicio pol⟩

/-- C8 amended witness at amount 100, rate 0, 1 year. -/
theorem widget_validation_amended_witness :
    1 ≤ (100:ℝ) ∧ 0 ≤ (0:ℝ) ∧ 1 ≤ 1 ∧ 12 = 1 * 12 ∧
    ((0 < (100:ℝ) ∧ 0 ≤ (0:ℝ) ∧ 1 ≤ 12) ∧
     (rows 100 (rm 0) 12 ⟨2024, 1, 1⟩ true).length = 12) :=
  ⟨by norm_num, le_rfl, le_rfl, by norm_num,
    widget_validation_amended 100 0 1 12 ⟨2024, 1, 1⟩ true (by norm_num) le_rfl le_rfl
      (by norm_num)⟩
